import Mathlib

/-!
Verification of the k0s dynamic cluster-configuration distribution subsystem
(`pkg/component/controller/clusterconfig` and the cluster-config reconciler):
the config pub/sub primitive, the static and API-backed config sources, and
the reconciler's startup protocol, main loop and status reporting.
-/

namespace K0s

/-! ## Data model

A Go struct is modelled field-wise: an association list from field path to
value holds exactly the fields whose value is not the zero value of their
type; a key absent from the list models a field holding its zero value.
-/

/-- Look up the value of a field in a field list; `none` models the zero
value. -/
def lookupField (m : List (String × String)) (k : String) : Option String :=
  match m with
  | [] => none
  | (k', v) :: rest => if k' = k then some v else lookupField rest k

/-- A `v1beta1.ClusterConfig` object: the `resourceVersion` string of its
object metadata, plus the remaining non-zero fields of the struct. -/
structure ClusterConfig where
  resourceVersion : String
  fields : List (String × String)
deriving Repr, DecidableEq

/-- `mergo.Merge(dst, src)` as called without `mergo.WithOverride`: every
field of `dst` that holds its zero value is filled from `src`; a field
already set in `dst` keeps its `dst` value. -/
def mergoMerge (dst src : List (String × String)) : List (String × String) :=
  dst ++ src.filter (fun p => (lookupField dst p.1).isNone)

/-- The in-place `mergo.Merge(cfg, a.bootstrapConfig)` call of
`apiConfigSource.Release`: the bootstrap config is merged into the observed
object, filling only its zero-valued fields.  The `resourceVersion` string is
one such field of the object metadata. -/
def mergeBootstrap (cfg bootstrap : ClusterConfig) : ClusterConfig :=
  { resourceVersion :=
      if cfg.resourceVersion = "" then bootstrap.resourceVersion
      else cfg.resourceVersion,
    fields := mergoMerge cfg.fields bootstrap.fields }

theorem lookupField_append (a b : List (String × String)) (k : String) :
    lookupField (a ++ b) k = (lookupField a k).or (lookupField b k) := by
  induction a with
  | nil => simp [lookupField]
  | cons p rest ih =>
    obtain ⟨k', v⟩ := p
    by_cases h : k' = k <;> simp [lookupField, h, ih]

theorem lookupField_filter_of_isNone (dst src : List (String × String))
    (k : String) (h : (lookupField dst k).isNone) :
    lookupField (src.filter (fun p => (lookupField dst p.1).isNone)) k =
      lookupField src k := by
  induction src with
  | nil => simp
  | cons p rest ih =>
    obtain ⟨k', v⟩ := p
    by_cases hk : k' = k
    · subst hk
      simp [List.filter, h, lookupField]
    · by_cases hkept : (lookupField dst k').isNone = true <;>
        simp [List.filter, hkept, lookupField, hk, ih]

/-- Field-wise characterisation of the default (non-overriding) mergo merge:
the destination's value wins wherever it is set, the source fills the rest. -/
theorem lookupField_mergoMerge (dst src : List (String × String)) (k : String) :
    lookupField (mergoMerge dst src) k =
      (lookupField dst k).or (lookupField src k) := by
  rw [mergoMerge, lookupField_append]
  cases hd : lookupField dst k with
  | some v => simp [Option.or]
  | none =>
    have := lookupField_filter_of_isNone dst src k (by simp [hd])
    simp [Option.or, this]

/-! ## apiConfigSource.Release watch callback

`apiConfigSource.Release` runs a watch over the single named cluster
configuration object.  A local variable `lastObservedVersion` starts as the
empty string; on every observed object `cfg`, the callback publishes (pushes
to `resultChan`) only when `lastObservedVersion != cfg.ResourceVersion`, in
which case it records the new version, merges the bootstrap config into the
object and pushes the result.
-/

/-- The state of the watch callback of `apiConfigSource.Release`: the
`lastObservedVersion` local variable plus the list of configurations pushed
to `resultChan` so far, in order. -/
structure ReleaseState where
  lastObservedVersion : String
  published : List ClusterConfig
deriving Repr, DecidableEq

/-- One invocation of the watch callback of `apiConfigSource.Release` on an
observed object `cfg`. -/
def releaseStep (bootstrap : ClusterConfig) (s : ReleaseState)
    (cfg : ClusterConfig) : ReleaseState :=
  if s.lastObservedVersion ≠ cfg.resourceVersion then
    { lastObservedVersion := cfg.resourceVersion,
      published := s.published ++ [mergeBootstrap cfg bootstrap] }
  else s

/-- The watch callback run over a whole sequence of observed objects,
`lastObservedVersion` starting out as the empty string. -/
def releaseRun (bootstrap : ClusterConfig) (cfgs : List ClusterConfig) :
    ReleaseState :=
  cfgs.foldl (releaseStep bootstrap) ⟨"", []⟩

/-- C1: an observed object whose resource version equals
`lastObservedVersion` produces no publication (the callback state is
unchanged), an observed object with a different resource version produces
exactly one publication, and observing versions "1", "1", "2" in sequence
publishes exactly two objects, carrying versions "1" then "2". -/
theorem release_version_filter
    (bootstrap : ClusterConfig) (s : ReleaseState) (cfg : ClusterConfig) :
    (cfg.resourceVersion = s.lastObservedVersion →
      releaseStep bootstrap s cfg = s) ∧
    (cfg.resourceVersion ≠ s.lastObservedVersion →
      (releaseStep bootstrap s cfg).published =
        s.published ++ [mergeBootstrap cfg bootstrap]) ∧
    (releaseRun bootstrap [⟨"1", []⟩, ⟨"1", []⟩, ⟨"2", []⟩]).published.map
        ClusterConfig.resourceVersion = ["1", "2"] := by
  refine ⟨fun h => ?_, fun h => ?_, ?_⟩
  · simp [releaseStep, h]
  · simp [releaseStep, Ne.symm h]
  · simp [releaseRun, releaseStep, mergeBootstrap]

/-- Concrete instantiation of `release_version_filter`, discharging both
hypotheses. -/
theorem release_version_filter_witness :
    releaseStep ⟨"", []⟩ ⟨"1", []⟩ ⟨"1", []⟩ = ⟨"1", []⟩ ∧
    (releaseStep ⟨"", []⟩ ⟨"1", []⟩ ⟨"2", []⟩).published =
      [] ++ [mergeBootstrap ⟨"2", []⟩ ⟨"", []⟩] :=
  ⟨(release_version_filter ⟨"", []⟩ ⟨"1", []⟩ ⟨"1", []⟩).1 (by decide),
   (release_version_filter ⟨"", []⟩ ⟨"1", []⟩ ⟨"2", []⟩).2.1 (by decide)⟩

/-- C2 counterexample: with a bootstrap overlay setting field "k" to "boot"
and an observed object setting the same field to "remote", the single
published object carries "remote", not "boot": the bootstrap overlay does
not win on a field both objects set. -/
theorem bootstrap_overlay_conflict_counterexample :
    (releaseRun ⟨"", [("k", "boot")]⟩ [⟨"1", [("k", "remote")]⟩]).published.map
        (fun c => lookupField c.fields "k") = [some "remote"] ∧
    (releaseRun ⟨"", [("k", "boot")]⟩ [⟨"1", [("k", "remote")]⟩]).published.map
        (fun c => lookupField c.fields "k") ≠ [some "boot"] := by decide

/-- C2 (amended): every object published by the watch callback after a
version change is the observed object merged with the bootstrap overlay such
that on every field where both have a value the OBSERVED object's value
wins; the bootstrap overlay fills only fields the observed object leaves at
their zero value. -/
theorem release_publishes_bootstrap_filled_config
    (bootstrap : ClusterConfig) (s : ReleaseState) (cfg : ClusterConfig)
    (h : cfg.resourceVersion ≠ s.lastObservedVersion) :
    ∃ pub, (releaseStep bootstrap s cfg).published = s.published ++ [pub] ∧
      ∀ k, lookupField pub.fields k =
        (lookupField cfg.fields k).or (lookupField bootstrap.fields k) := by
  refine ⟨mergeBootstrap cfg bootstrap, ?_, fun k => ?_⟩
  · simp [releaseStep, Ne.symm h]
  · exact lookupField_mergoMerge cfg.fields bootstrap.fields k

/-- Concrete instantiation of `release_publishes_bootstrap_filled_config`,
discharging its hypothesis. -/
theorem release_publishes_bootstrap_filled_config_witness :
    ∃ pub, (releaseStep ⟨"", [("k", "boot")]⟩ ⟨"", []⟩
        ⟨"1", [("k", "remote")]⟩).published = [] ++ [pub] ∧
      ∀ k, lookupField pub.fields k =
        (lookupField [("k", "remote")] k).or (lookupField [("k", "boot")] k) :=
  release_publishes_bootstrap_filled_config ⟨"", [("k", "boot")]⟩ ⟨"", []⟩
    ⟨"1", [("k", "remote")]⟩ (by decide)

/-! ## configPubSub

`configPubSub` holds the latest configuration pointer and a slice of
subscriber channels of capacity 1.  Channels carry `*ClusterConfig` Go
pointers, which may be nil.  A channel is modelled with its pending buffer,
the history of values its subscriber end has taken off it, and its closed
flag.
-/

/-- A `*ClusterConfig` Go pointer; `none` is the nil pointer. -/
abbrev CfgPtr := Option ClusterConfig

/-- A buffered Go channel of `*ClusterConfig` with capacity 1: the pending
buffer (at most one element), the values the receiving end has taken off so
far (its observation history), and whether the channel has been closed. -/
structure Chan where
  buffer : List CfgPtr
  received : List CfgPtr
  closed : Bool
deriving Repr, DecidableEq

/-- The non-blocking send arm of the `select` in `notifySubscribers`: the
value is placed in the buffer when there is room (capacity 1), otherwise the
`default` arm skips this subscriber. -/
def sendNonBlocking (cfg : CfgPtr) (c : Chan) : Chan :=
  if c.buffer.length < 1 then { c with buffer := c.buffer ++ [cfg] } else c

/-- A receive by the subscriber end: takes the oldest buffered value off the
channel, if any. -/
def recvChan (c : Chan) : Chan :=
  match c.buffer with
  | [] => c
  | v :: rest => { c with buffer := rest, received := c.received ++ [v] }

/-- `close(ch)`: marks the channel closed. -/
def closeChan (c : Chan) : Chan := { c with closed := true }

/-- Whether `ctx.Done()` is closed by the time the fan-out loop of
`notifySubscribers` reaches subscriber index `i`.  A context, once
cancelled, stays cancelled, so cancellation is a threshold `cancelFrom` on
the iteration index (`none`: the context is never cancelled during this
pass). -/
def cancelled (cancelFrom : Option Nat) (i : Nat) : Bool :=
  match cancelFrom with
  | none => false
  | some n => n ≤ i

/-- The fan-out loop of `notifySubscribers`, iterating the subscriber slice
from index `i`: when the context is cancelled the loop returns, leaving the
remaining channels untouched; otherwise the `select` delivers the value
non-blockingly to the current channel and the loop continues. -/
def notifyChans (cfg : CfgPtr) (cancelFrom : Option Nat) :
    Nat → List Chan → List Chan
  | _, [] => []
  | i, c :: rest =>
    if cancelled cancelFrom i then c :: rest
    else sendNonBlocking cfg c :: notifyChans cfg cancelFrom (i + 1) rest

/-- The subscriber i receives from its channel: the list of channels with
channel `i` having taken its oldest buffered value (out of range: no
change). -/
def recvList : Nat → List Chan → List Chan
  | _, [] => []
  | 0, c :: rest => recvChan c :: rest
  | i + 1, c :: rest => c :: recvList i rest

/-- The `configPubSub` state: the latest config pointer and the subscriber
channel slice, plus two observation histories that the Go code does not
store but that its behaviour defines: the channels closed by `Stop` so far
(in closing order) and the values handed to fan-out passes so far (in
order). -/
structure ConfigPubSub where
  config : CfgPtr
  subscribers : List Chan
  closedChans : List Chan
  log : List CfgPtr
deriving Repr, DecidableEq

/-- `configPubSub.updateConfig`: stores the new config under the write
lock. -/
def ConfigPubSub.updateConfig (p : ConfigPubSub) (cfg : CfgPtr) :
    ConfigPubSub :=
  { p with config := cfg }

/-- `configPubSub.notifySubscribers`: fans the current config out to every
subscriber channel with non-blocking sends, stopping early if the context is
cancelled. -/
def ConfigPubSub.notifySubscribers (cancelFrom : Option Nat)
    (p : ConfigPubSub) : ConfigPubSub :=
  { p with subscribers := notifyChans p.config cancelFrom 0 p.subscribers,
           log := p.log ++ [p.config] }

/-- `configPubSub.ResultChan`: appends a fresh open channel of capacity 1 to
the subscriber slice. -/
def ConfigPubSub.ResultChan (p : ConfigPubSub) : ConfigPubSub :=
  { p with subscribers := p.subscribers ++ [⟨[], [], false⟩] }

/-- `configPubSub.Stop`: closes every subscriber channel and sets the
subscriber slice to nil. -/
def ConfigPubSub.Stop (p : ConfigPubSub) : ConfigPubSub :=
  { p with subscribers := [],
           closedChans := p.closedChans ++ p.subscribers.map closeChan }

/-- In Go, `close` of an already-closed channel panics, so
`configPubSub.Stop` panics exactly when some currently subscribed channel is
already closed. -/
def ConfigPubSub.stopPanics (p : ConfigPubSub) : Bool :=
  p.subscribers.any (·.closed)

/-- The operations a run of the system performs against one `configPubSub`:
the producer side (`updateConfig`, `notifySubscribers`, `Stop`) and the
subscriber side (subscribing via `ResultChan`, receiving from channel
`i`). -/
inductive Op where
  | update (cfg : CfgPtr)
  | notify (cancelFrom : Option Nat)
  | subscribe
  | recv (i : Nat)
  | stop
deriving Repr, DecidableEq

/-- One step of a run against a `configPubSub`. -/
def pubSubStep (p : ConfigPubSub) : Op → ConfigPubSub
  | .update cfg => p.updateConfig cfg
  | .notify cancelFrom => ConfigPubSub.notifySubscribers cancelFrom p
  | .subscribe => p.ResultChan
  | .recv i => { p with subscribers := recvList i p.subscribers }
  | .stop => p.Stop

/-- A freshly constructed `configPubSub`: nil config, no subscribers. -/
def pubSubInit : ConfigPubSub := ⟨none, [], [], []⟩

/-- A whole run of operations against a fresh `configPubSub`. -/
def pubSubRun (ops : List Op) : ConfigPubSub :=
  ops.foldl pubSubStep pubSubInit

theorem cancelled_mono (cancelFrom : Option Nat) {i j : Nat} (h : i ≤ j)
    (hc : cancelled cancelFrom i = true) : cancelled cancelFrom j = true := by
  cases cancelFrom with
  | none => simp [cancelled] at hc
  | some n => simp only [cancelled, decide_eq_true_eq] at hc ⊢; omega

theorem notifyChans_getElem? (cfg : CfgPtr) (cancelFrom : Option Nat)
    (i : Nat) (l : List Chan) (j : Nat) :
    (notifyChans cfg cancelFrom i l)[j]? =
      if cancelled cancelFrom (i + j) then l[j]?
      else l[j]?.map (sendNonBlocking cfg) := by
  induction l generalizing i j with
  | nil => simp [notifyChans]
  | cons c rest ih =>
    rw [notifyChans]
    by_cases hi : cancelled cancelFrom i = true
    · rw [if_pos hi, if_pos (cancelled_mono cancelFrom (Nat.le_add_right i j) hi)]
    · rw [if_neg hi]
      cases j with
      | zero => simp [hi]
      | succ j =>
        have harith : i + 1 + j = i + (j + 1) := by omega
        simp only [List.getElem?_cons_succ, ih (i + 1) j, harith]

/-- C3: in a `notifySubscribers` fan-out pass, a subscriber channel whose
capacity-1 buffer is free receives the current config; a channel whose
buffer is full is skipped (the producer never blocks); and a subscriber at
or past the iteration index where the context was cancelled receives
nothing, its channel left untouched. -/
theorem notifySubscribers_per_subscriber (cancelFrom : Option Nat)
    (p : ConfigPubSub) (j : Nat) (c : Chan)
    (hc : p.subscribers[j]? = some c) :
    (cancelled cancelFrom j = false → c.buffer = [] →
      (ConfigPubSub.notifySubscribers cancelFrom p).subscribers[j]? =
        some { c with buffer := [p.config] }) ∧
    (cancelled cancelFrom j = false → c.buffer ≠ [] →
      (ConfigPubSub.notifySubscribers cancelFrom p).subscribers[j]? = some c) ∧
    (cancelled cancelFrom j = true →
      (ConfigPubSub.notifySubscribers cancelFrom p).subscribers[j]? = some c) := by
  have h := notifyChans_getElem? p.config cancelFrom 0 p.subscribers j
  rw [Nat.zero_add, hc] at h
  refine ⟨fun hcf hb => ?_, fun hcf hb => ?_, fun hcf => ?_⟩
  · rw [ConfigPubSub.notifySubscribers, h, if_neg (by simp [hcf])]
    simp [sendNonBlocking, hb]
  · have hfull : ¬c.buffer.length < 1 := by
      cases hbuf : c.buffer with
      | nil => exact absurd hbuf hb
      | cons v rest => simp
    rw [ConfigPubSub.notifySubscribers, h, if_neg (by simp [hcf])]
    simp [sendNonBlocking, hfull]
  · rw [ConfigPubSub.notifySubscribers, h, if_pos hcf]

/-- Concrete instantiation of `notifySubscribers_per_subscriber`: one open
subscriber with a free buffer receives the current config. -/
theorem notifySubscribers_per_subscriber_witness :
    (⟨some ⟨"1", []⟩, [⟨[], [], false⟩], [], []⟩ :
        ConfigPubSub).subscribers[0]? = some ⟨[], [], false⟩ ∧
    (ConfigPubSub.notifySubscribers none
        ⟨some ⟨"1", []⟩, [⟨[], [], false⟩], [], []⟩).subscribers[0]? =
      some ⟨[some ⟨"1", []⟩], [], false⟩ :=
  ⟨by decide,
   (notifySubscribers_per_subscriber none
      ⟨some ⟨"1", []⟩, [⟨[], [], false⟩], [], []⟩ 0 ⟨[], [], false⟩
      (by decide)).1 (by decide) (by decide)⟩

/-- What a subscriber channel has observed of the published values: the
values it already took off the channel followed by the value still pending
in its buffer. -/
def chanObs (c : Chan) : List CfgPtr := c.received ++ c.buffer

theorem chanObs_recvChan (c : Chan) : chanObs (recvChan c) = chanObs c := by
  cases hbuf : c.buffer with
  | nil => simp [recvChan, hbuf]
  | cons v rest => simp [recvChan, hbuf, chanObs]

theorem chanObs_sendNonBlocking (cfg : CfgPtr) (c : Chan) :
    chanObs (sendNonBlocking cfg c) = chanObs c ∨
    chanObs (sendNonBlocking cfg c) = chanObs c ++ [cfg] := by
  by_cases h : c.buffer.length < 1
  · right; simp [sendNonBlocking, h, chanObs]
  · left; simp [sendNonBlocking, h]

theorem mem_notifyChans {cfg : CfgPtr} {cancelFrom : Option Nat} {i : Nat}
    {l : List Chan} {c : Chan} (hc : c ∈ notifyChans cfg cancelFrom i l) :
    c ∈ l ∨ ∃ c' ∈ l, c = sendNonBlocking cfg c' := by
  induction l generalizing i with
  | nil => simp [notifyChans] at hc
  | cons hd rest ih =>
    rw [notifyChans] at hc
    by_cases hi : cancelled cancelFrom i = true
    · rw [if_pos hi] at hc
      exact Or.inl hc
    · rw [if_neg hi] at hc
      rcases List.mem_cons.mp hc with rfl | htl
      · exact Or.inr ⟨hd, List.mem_cons_self hd rest, rfl⟩
      · rcases ih htl with hmem | ⟨c', hc', rfl⟩
        · exact Or.inl (List.mem_cons_of_mem hd hmem)
        · exact Or.inr ⟨c', List.mem_cons_of_mem hd hc', rfl⟩

theorem mem_recvList {i : Nat} {l : List Chan} {c : Chan}
    (hc : c ∈ recvList i l) : c ∈ l ∨ ∃ c' ∈ l, c = recvChan c' := by
  induction l generalizing i with
  | nil => simp [recvList] at hc
  | cons hd rest ih =>
    cases i with
    | zero =>
      rw [recvList] at hc
      rcases List.mem_cons.mp hc with rfl | htl
      · exact Or.inr ⟨hd, List.mem_cons_self hd rest, rfl⟩
      · exact Or.inl (List.mem_cons_of_mem hd htl)
    | succ i =>
      rw [recvList] at hc
      rcases List.mem_cons.mp hc with rfl | htl
      · exact Or.inl (List.mem_cons_self c rest)
      · rcases ih htl with hmem | ⟨c', hc', rfl⟩
        · exact Or.inl (List.mem_cons_of_mem hd hmem)
        · exact Or.inr ⟨c', List.mem_cons_of_mem hd hc', rfl⟩

/-- The C4 invariant: every subscriber channel has observed a subsequence of
the values distributed so far, in order. -/
def subsObserveLog (p : ConfigPubSub) : Prop :=
  ∀ c ∈ p.subscribers, (chanObs c).Sublist p.log

theorem subsObserveLog_step (p : ConfigPubSub) (op : Op)
    (h : subsObserveLog p) : subsObserveLog (pubSubStep p op) := by
  cases op with
  | update cfg => exact fun c hc => h c hc
  | notify cancelFrom =>
    intro c hc
    simp only [pubSubStep, ConfigPubSub.notifySubscribers] at hc ⊢
    rcases mem_notifyChans hc with hmem | ⟨c', hc', rfl⟩
    · exact (h c hmem).trans (List.sublist_append_left p.log [p.config])
    · rcases chanObs_sendNonBlocking p.config c' with he | he
      · exact he ▸ (h c' hc').trans (List.sublist_append_left p.log [p.config])
      · exact he ▸ (h c' hc').append (List.Sublist.refl [p.config])
  | subscribe =>
    intro c hc
    simp only [pubSubStep, ConfigPubSub.ResultChan, List.mem_append,
      List.mem_singleton] at hc
    rcases hc with hmem | rfl
    · exact h c hmem
    · simp [chanObs]
  | recv i =>
    intro c hc
    simp only [pubSubStep] at hc ⊢
    rcases mem_recvList hc with hmem | ⟨c', hc', rfl⟩
    · exact h c hmem
    · exact (chanObs_recvChan c') ▸ h c' hc'
  | stop =>
    intro c hc
    simp [pubSubStep, ConfigPubSub.Stop] at hc

theorem subsObserveLog_run (ops : List Op) : subsObserveLog (pubSubRun ops) := by
  suffices h : ∀ p, subsObserveLog p → subsObserveLog (ops.foldl pubSubStep p) from
    h pubSubInit (by intro c hc; simp [pubSubInit] at hc)
  induction ops with
  | nil => exact fun p hp => hp
  | cons op rest ih => exact fun p hp => ih (pubSubStep p op) (subsObserveLog_step p op hp)

/-- C4: over every run of updateConfig, notifySubscribers, ResultChan,
receive and Stop operations against a configPubSub, each subscriber channel
observes (received values followed by the buffered one) a subsequence of the
distributed values in publish order: values may be dropped, but none is
observed out of order and no stale value is redelivered after a newer
one. -/
theorem subscriber_observes_subsequence (ops : List Op) (c : Chan)
    (hc : c ∈ (pubSubRun ops).subscribers) :
    (chanObs c).Sublist (pubSubRun ops).log :=
  subsObserveLog_run ops c hc

/-- Concrete instantiation of `subscriber_observes_subsequence` on a run
with one subscriber, one update and one notify pass. -/
theorem subscriber_observes_subsequence_witness :
    (⟨[some ⟨"1", []⟩], [], false⟩ : Chan) ∈
      (pubSubRun [.subscribe, .update (some ⟨"1", []⟩), .notify none]).subscribers ∧
    (chanObs ⟨[some ⟨"1", []⟩], [], false⟩).Sublist
      (pubSubRun [.subscribe, .update (some ⟨"1", []⟩), .notify none]).log :=
  ⟨by decide,
   subscriber_observes_subsequence [.subscribe, .update (some ⟨"1", []⟩), .notify none]
     ⟨[some ⟨"1", []⟩], [], false⟩ (by decide)⟩

/-! ## Stop semantics of the config sources -/

/-- All currently subscribed channels are open (no channel is closed while
it is still in the subscriber slice). -/
def allSubsOpen (p : ConfigPubSub) : Prop :=
  ∀ c ∈ p.subscribers, c.closed = false

theorem sendNonBlocking_closed (cfg : CfgPtr) (c : Chan) :
    (sendNonBlocking cfg c).closed = c.closed := by
  by_cases h : c.buffer.length < 1 <;> simp [sendNonBlocking, h]

theorem recvChan_closed (c : Chan) : (recvChan c).closed = c.closed := by
  cases hbuf : c.buffer <;> simp [recvChan, hbuf]

theorem allSubsOpen_step (p : ConfigPubSub) (op : Op)
    (h : allSubsOpen p) : allSubsOpen (pubSubStep p op) := by
  cases op with
  | update cfg => exact fun c hc => h c hc
  | notify cancelFrom =>
    intro c hc
    simp only [pubSubStep, ConfigPubSub.notifySubscribers] at hc
    rcases mem_notifyChans hc with hmem | ⟨c', hc', rfl⟩
    · exact h c hmem
    · rw [sendNonBlocking_closed]; exact h c' hc'
  | subscribe =>
    intro c hc
    simp only [pubSubStep, ConfigPubSub.ResultChan, List.mem_append,
      List.mem_singleton] at hc
    rcases hc with hmem | rfl
    · exact h c hmem
    · rfl
  | recv i =>
    intro c hc
    simp only [pubSubStep] at hc
    rcases mem_recvList hc with hmem | ⟨c', hc', rfl⟩
    · exact h c hmem
    · rw [recvChan_closed]; exact h c' hc'
  | stop =>
    intro c hc
    simp [pubSubStep, ConfigPubSub.Stop] at hc

theorem allSubsOpen_run (ops : List Op) : allSubsOpen (pubSubRun ops) := by
  suffices h : ∀ p, allSubsOpen p → allSubsOpen (ops.foldl pubSubStep p) from
    h pubSubInit (by intro c hc; simp [pubSubInit] at hc)
  induction ops with
  | nil => exact fun p hp => hp
  | cons op rest ih => exact fun p hp => ih (pubSubStep p op) (allSubsOpen_step p op hp)

theorem stopPanics_eq_false_of_allSubsOpen (p : ConfigPubSub)
    (h : allSubsOpen p) : p.stopPanics = false := by
  rw [ConfigPubSub.stopPanics, List.any_eq_false]
  intro c hc
  simp [h c hc]

/-- `configPubSub.Stop` applied `n` times in a row. -/
def stopN : Nat → ConfigPubSub → ConfigPubSub
  | 0, p => p
  | n + 1, p => stopN n p.Stop

theorem stop_stop (p : ConfigPubSub) : p.Stop.Stop = p.Stop := by
  simp [ConfigPubSub.Stop]

theorem stopN_stop (n : Nat) (p : ConfigPubSub) :
    stopN n p.Stop = p.Stop := by
  induction n with
  | zero => rfl
  | succ n ih => rw [stopN, stop_stop, ih]

/-- C5 (amended): on every reachable configPubSub state, calling `Stop`
N >= 1 times closes every subscriber channel exactly once and never panics:
the first call closes exactly the subscribed channels and empties the
subscriber slice, every later call is the identity and closes nothing, and
no call ever double-closes a channel. -/
theorem pubsub_stop_idempotent (ops : List Op) (n : Nat) (hn : 1 ≤ n) :
    (pubSubRun ops).stopPanics = false ∧
    stopN n (pubSubRun ops) = (pubSubRun ops).Stop ∧
    ((pubSubRun ops).Stop).subscribers = [] ∧
    ((pubSubRun ops).Stop).closedChans =
      (pubSubRun ops).closedChans ++ (pubSubRun ops).subscribers.map closeChan ∧
    (∀ k, ConfigPubSub.stopPanics (stopN k (pubSubRun ops)) = false) := by
  have hopen := allSubsOpen_run ops
  refine ⟨stopPanics_eq_false_of_allSubsOpen _ hopen, ?_, rfl, rfl, fun k => ?_⟩
  · obtain ⟨m, rfl⟩ := Nat.exists_eq_add_of_le hn
    rw [Nat.add_comm, stopN, stopN_stop]
  · cases k with
    | zero => exact stopPanics_eq_false_of_allSubsOpen _ hopen
    | succ k => rw [stopN, stopN_stop]; rfl

/-- Concrete instantiation of `pubsub_stop_idempotent`: two Stop calls on a
run that subscribed one channel. -/
theorem pubsub_stop_idempotent_witness :
    (pubSubRun [.subscribe]).stopPanics = false ∧
    stopN 2 (pubSubRun [.subscribe]) = (pubSubRun [.subscribe]).Stop :=
  ⟨(pubsub_stop_idempotent [.subscribe] 2 (by decide)).1,
   (pubsub_stop_idempotent [.subscribe] 2 (by decide)).2.1⟩

/-- `apiConfigSource` as defined in apiconfigsource.go: it owns a
`resultChan` channel pointer, `none` being the nil pointer. -/
structure ApiConfigSource where
  resultChan : Option Chan
deriving Repr, DecidableEq

/-- `close(ch)` at the Go level: closing an already-closed channel panics,
modelled as `none`. -/
def goClose (c : Chan) : Option Chan :=
  if c.closed then none else some { c with closed := true }

/-- `apiConfigSource.Stop` from apiconfigsource.go:
`if a.resultChan != nil { close(a.resultChan) }`; `none` models a panic. -/
def ApiConfigSource.Stop (a : ApiConfigSource) : Option ApiConfigSource :=
  match a.resultChan with
  | none => some a
  | some c => (goClose c).map fun c' => { a with resultChan := some c' }

/-- C5 counterexample: the apiConfigSource is a ConfigSource on which
calling `Stop` twice (N = 2) double-closes the result channel and panics:
the nil check does not guard against a second close. -/
theorem apiConfigSource_double_stop_panics :
    (ApiConfigSource.Stop ⟨some ⟨[], [], false⟩⟩).bind ApiConfigSource.Stop =
      none := by decide

/-- `staticSource` as defined in the static source file: it embeds a
`configPubSub`. -/
structure StaticSource where
  pubsub : ConfigPubSub
deriving Repr, DecidableEq

/-- `func (*staticSource) Stop() {}`: an explicit no-op method that
overrides (shadows) the embedded configPubSub's `Stop`. -/
def StaticSource.Stop (s : StaticSource) : StaticSource := s

/-- C9 counterexample: stopping a staticSource that has one open subscriber
closes nothing: the subscriber channel stays open and subscribed, whereas
the ConfigPubSub stop on the embedded state would have emptied the
subscriber slice. -/
theorem staticSource_stop_counterexample :
    (StaticSource.Stop ⟨⟨none, [⟨[], [], false⟩], [], []⟩⟩).pubsub.subscribers =
      [⟨[], [], false⟩] ∧
    ((StaticSource.Stop
        ⟨⟨none, [⟨[], [], false⟩], [], []⟩⟩).pubsub.subscribers.all
      (·.closed)) = false ∧
    (ConfigPubSub.Stop ⟨none, [⟨[], [], false⟩], [], []⟩).subscribers = [] := by
  decide

/-- C9 (amended): `staticSource.Stop` does not delegate to the embedded
ConfigPubSub's stop: it is a no-op that leaves the whole source state, its
subscriber channels included, unchanged. -/
theorem staticSource_stop_noop (s : StaticSource) : StaticSource.Stop s = s :=
  rfl

/-- C10: after a `Stop`, `ResultChan` hands out a fresh open channel
appended to the emptied subscriber slice: it is not closed by the earlier
Stop, it receives a notification published afterwards, and it is closed only
by a subsequent Stop (which does not panic). -/
theorem resultChan_after_stop (p : ConfigPubSub) (c : ClusterConfig) :
    (p.Stop.ResultChan).subscribers = [⟨[], [], false⟩] ∧
    (ConfigPubSub.notifySubscribers none
        ((p.Stop.ResultChan).updateConfig (some c))).subscribers =
      [⟨[some c], [], false⟩] ∧
    ConfigPubSub.stopPanics (ConfigPubSub.notifySubscribers none
        ((p.Stop.ResultChan).updateConfig (some c))) = false ∧
    (ConfigPubSub.notifySubscribers none
        ((p.Stop.ResultChan).updateConfig (some c))).Stop.subscribers = [] ∧
    (ConfigPubSub.notifySubscribers none
        ((p.Stop.ResultChan).updateConfig (some c))).Stop.closedChans =
      (ConfigPubSub.notifySubscribers none
        ((p.Stop.ResultChan).updateConfig (some c))).closedChans ++
        [⟨[some c], [], true⟩] := by
  refine ⟨rfl, ?_, ?_, rfl, ?_⟩ <;>
    simp [ConfigPubSub.Stop, ConfigPubSub.ResultChan, ConfigPubSub.updateConfig,
      ConfigPubSub.notifySubscribers, notifyChans, cancelled, sendNonBlocking,
      ConfigPubSub.stopPanics, closeChan]

/-! ## ClusterConfigReconciler

The reconciler's startup protocol (`wait.PollImmediateWithContext` ensuring
the initial cluster configuration object exists), its main loop
(validate-then-reconcile on every received config) and its status reporting
(`reportStatus`).
-/

/-- The fields of the observability event that `reportStatus` derives from
the reconcile outcome. -/
structure ReconcileEvent where
  reason : String
  message : String
  eventType : String
deriving Repr, DecidableEq

/-- How `reportStatus` fills the event from the error of the cycle: a
failure yields a `FailedReconciling` warning carrying the error text, a
success yields a `SuccessfulReconcile` normal event. -/
def mkReconcileEvent (reconcileError : Option String) : ReconcileEvent :=
  match reconcileError with
  | some e => ⟨"FailedReconciling", e, "Warning"⟩
  | none => ⟨"SuccessfulReconcile", "Successfully reconciled cluster config",
      "Normal"⟩

/-- One cycle of the reconciler main loop on a received config:
`err := cfg.ValidationError(); if err == nil { err = Reconcile(ctx, cfg) };
reportStatus(cfg, err)`.  Returns whether the downstream `Reconcile` was
invoked, and the event recorded for the cycle. -/
def reconcileCycle (validationError : ClusterConfig → Option String)
    (reconcile : ClusterConfig → Option String) (cfg : ClusterConfig) :
    Bool × ReconcileEvent :=
  match validationError cfg with
  | some e => (false, mkReconcileEvent (some e))
  | none => (true, mkReconcileEvent (reconcile cfg))

/-- The reconciler main loop over the sequence of configs received on the
subscription channel: each received config is processed by one cycle and the
loop continues with the next. -/
def reconcileLoop (validationError reconcile : ClusterConfig → Option String)
    (cfgs : List ClusterConfig) : List (Bool × ReconcileEvent) :=
  cfgs.map (reconcileCycle validationError reconcile)

/-- C6: when a received config fails validation, the downstream `Reconcile`
is not invoked for that cycle, the recorded event is a `FailedReconciling`
event carrying the validation error text, and the loop continues with the
remaining updates. -/
theorem validation_failure_skips_reconcile
    (validationError reconcile : ClusterConfig → Option String)
    (cfg : ClusterConfig) (e : String) (h : validationError cfg = some e) :
    (reconcileCycle validationError reconcile cfg).1 = false ∧
    (reconcileCycle validationError reconcile cfg).2.reason =
      "FailedReconciling" ∧
    (reconcileCycle validationError reconcile cfg).2.message = e ∧
    ∀ rest, reconcileLoop validationError reconcile (cfg :: rest) =
      reconcileCycle validationError reconcile cfg ::
        reconcileLoop validationError reconcile rest := by
  refine ⟨?_, ?_, ?_, fun rest => ?_⟩ <;>
    simp [reconcileCycle, h, mkReconcileEvent, reconcileLoop]

/-- Concrete instantiation of `validation_failure_skips_reconcile` on a
config whose validation fails with "spec invalid". -/
theorem validation_failure_skips_reconcile_witness :
    (reconcileCycle (fun _ => some "spec invalid") (fun _ => none)
      ⟨"1", []⟩).1 = false ∧
    (reconcileCycle (fun _ => some "spec invalid") (fun _ => none)
      ⟨"1", []⟩).2.message = "spec invalid" :=
  ⟨(validation_failure_skips_reconcile (fun _ => some "spec invalid")
      (fun _ => none) ⟨"1", []⟩ "spec invalid" rfl).1,
   (validation_failure_skips_reconcile (fun _ => some "spec invalid")
      (fun _ => none) ⟨"1", []⟩ "spec invalid" rfl).2.2.1⟩

/-- Outcome of `createClusterConfig` were it attempted during one startup
poll attempt. -/
inductive CreateResult where
  | created
  | alreadyExists
  | otherError (e : String)
deriving Repr, DecidableEq

/-- Which remote call a startup poll attempt performs. -/
inductive PollAction where
  | createAttempt
  | existenceCheck
deriving Repr, DecidableEq

/-- What one startup poll attempt observes of the outside world: whether
this node holds the leader lease at that moment, what
`createClusterConfig` would return were it attempted, and what
`clusterConfigExists` would return were it consulted (`none`: the Get
succeeds). -/
structure PollEnv where
  isLeader : Bool
  createResult : CreateResult
  existsResult : Option String
deriving Repr, DecidableEq

/-- One attempt of the `wait.PollImmediateWithContext` condition in
`ClusterConfigReconciler.Start`: the leader attempts to create the initial
cluster configuration object, an `IsAlreadyExists` conflict being accepted
exactly like a successful creation, while a non-leader only checks that the
object exists.  Returns the condition's `(done, err)` pair and the remote
action taken. -/
def startupAttempt (env : PollEnv) : Bool × Option String × PollAction :=
  if env.isLeader then
    match env.createResult with
    | .created => (true, none, .createAttempt)
    | .alreadyExists => (true, none, .createAttempt)
    | .otherError e =>
      (false, some ("failed to create cluster config: " ++ e), .createAttempt)
  else
    match env.existsResult with
    | none => (true, none, .existenceCheck)
    | some e => (false, some e, .existenceCheck)

/-- `wait.PollImmediateWithContext` run over the successive attempt
environments: it returns successfully (with the number of attempts
consumed) at the first attempt whose condition is done, propagates the
error of the first attempt whose condition errors, and times out when the
attempts are exhausted. -/
def pollRun : List PollEnv → Except String Nat
  | [] => .error "timed out waiting for the condition"
  | env :: rest =>
    match startupAttempt env with
    | (true, _, _) => .ok 1
    | (false, some e, _) => .error e
    | (false, none, _) =>
      match pollRun rest with
      | .ok n => .ok (n + 1)
      | .error e => .error e

/-- C7: during the startup protocol, an "already exists" answer to the
initial creation ends the poll successfully on that very attempt, exactly
like a successful creation; the leader node is the one attempting the
create, while a non-leader only checks for the object's existence and
succeeds as soon as it observes it. -/
theorem startup_already_exists_is_success (env : PollEnv)
    (rest : List PollEnv) :
    (env.isLeader = true → (startupAttempt env).2.2 = .createAttempt) ∧
    (env.isLeader = true → env.createResult = .alreadyExists →
      startupAttempt env = (true, none, .createAttempt) ∧
      pollRun (env :: rest) = .ok 1) ∧
    (env.isLeader = true → env.createResult = .created →
      startupAttempt env = (true, none, .createAttempt) ∧
      pollRun (env :: rest) = .ok 1) ∧
    (env.isLeader = false → (startupAttempt env).2.2 = .existenceCheck) ∧
    (env.isLeader = false → env.existsResult = none →
      startupAttempt env = (true, none, .existenceCheck) ∧
      pollRun (env :: rest) = .ok 1) := by
  obtain ⟨leader, create, ex⟩ := env
  refine ⟨fun hl => ?_, fun hl hc => ?_, fun hl hc => ?_, fun hl => ?_,
    fun hl hx => ?_⟩
  · subst hl; cases create <;> simp [startupAttempt]
  · simp only at hc; subst hl; subst hc; simp [startupAttempt, pollRun]
  · simp only at hc; subst hl; subst hc; simp [startupAttempt, pollRun]
  · subst hl; cases ex <;> simp [startupAttempt]
  · simp only at hx; subst hl; subst hx; simp [startupAttempt, pollRun]

/-- Concrete instantiation of `startup_already_exists_is_success`: a leader
whose create conflicts, and a long queue of would-be retries that are never
consumed. -/
theorem startup_already_exists_is_success_witness :
    startupAttempt ⟨true, .alreadyExists, none⟩ =
      (true, none, .createAttempt) ∧
    pollRun [⟨true, .alreadyExists, none⟩, ⟨true, .otherError "boom", none⟩] =
      .ok 1 :=
  (startup_already_exists_is_success ⟨true, .alreadyExists, none⟩
    [⟨true, .otherError "boom", none⟩]).2.1 rfl rfl

/-- The outcome of one `reportStatus` call: it either runs to completion
having emitted the given log lines, or panics (crashing the goroutine it
runs on). -/
inductive ReportOutcome where
  | completed (logs : List String)
  | panicked (msg : String)
deriving Repr, DecidableEq

/-- The collaborators `reportStatus` consults: the result of `os.Hostname`,
whether `KubeClientFactory.GetClient` succeeds (on error it returns a nil
client, as every factory in this repository does), and the result of the
event-creation call on the kube client. -/
structure ReportEnv where
  hostnameResult : Except String String
  clientAvailable : Bool
  createEventResult : Option String
deriving Repr

/-- `ClusterConfigReconciler.reportStatus`: a hostname error is logged and
an empty hostname used; a `GetClient` error is logged, but the code then
still calls `client.CoreV1()` on the nil client it got back, dereferencing
a nil interface; an event-creation error is logged.  The event recorded is
`mkReconcileEvent reconcileError`. -/
def reportStatus (env : ReportEnv) (reconcileError : Option String) :
    ReportOutcome × ReconcileEvent :=
  let logs0 : List String :=
    match env.hostnameResult with
    | .error e => ["failed to get hostname:" ++ e]
    | .ok _ => []
  let logs1 : List String :=
    if env.clientAvailable then logs0
    else logs0 ++ ["failed to get kube client:"]
  let ev := mkReconcileEvent reconcileError
  if env.clientAvailable then
    match env.createEventResult with
    | some e =>
      (.completed (logs1 ++ ["failed to create event for config reconcile:" ++ e]), ev)
    | none => (.completed logs1, ev)
  else
    (.panicked "invalid memory address or nil pointer dereference", ev)

/-- C8: hostname-lookup and event-creation failures are indeed logged and
swallowed, but a kube-client failure is not: after logging it,
`reportStatus` dereferences the nil client and panics, crashing the
reconcile goroutine. -/
theorem report_status_nil_client_panics :
    (reportStatus ⟨.ok "node-1", false, none⟩ none).1 =
      .panicked "invalid memory address or nil pointer dereference" ∧
    (reportStatus ⟨.error "lookup failed", true, none⟩ none).1 =
      .completed ["failed to get hostname:lookup failed"] ∧
    (reportStatus ⟨.ok "node-1", true, some "events quota"⟩ (some "bad")).1 =
      .completed ["failed to create event for config reconcile:events quota"] := by
  decide

end K0s
